import Mathlib

/-!
Verification of the syd parameter/state/callback engine against its
natural-language specification.

The repository ships the documentation of the engine (SKILLS.md, the FAQ,
the tutorial, the planning notes) but the Python implementation itself
(syd/viewer.py, syd/parameters.py, syd/support.py) is not among the source
files available here.  Every definition below is therefore modelled from
the specification's description of the engine: the parameter type matrix
of spec §3, the reconciliation policy of §4.1, the registry and phase
rules of §4.2, and the dispatch protocol of §4.3.
-/

set_option linter.unusedVariables false

namespace Syd

/-- Modelled from the spec: the error taxonomy of §7 (`ParameterAddError`,
`ParameterUpdateError`, `RuntimeError` for phase violations, `TypeError`
for updating a parameter with a different type's update method, and
`ValueError` for malformed callback registration). -/
inductive Err where
  | parameterAddError
  | parameterUpdateError
  | runtimeError
  | typeError
  | valueError

deriving instance DecidableEq for Err

/-- Modelled from the spec: clamping a proposed value into the interval
from `lo` to `hi` (spec §4.1 reconciliation: values outside min/max are
clamped, never forced outside the bounds). -/
def clampV {α : Type} [LinearOrder α] (lo hi v : α) : α := min hi (max lo v)

/-- Modelled from the spec: rounding a rational to the nearest integer
(half-up), used to express "rounded to nearest multiple of step". -/
def ratRound (q : Rat) : Int := ⌊q + 1 / 2⌋

/-- Modelled from the spec: a Float value is rounded to the nearest
multiple of `step` measured from the lower bound `lo` (spec §3); a
non-positive step disables the rounding. -/
def roundStep (lo step q : Rat) : Rat :=
  if 0 < step then lo + (ratRound ((q - lo) / step) : Rat) * step else q

/-- Modelled from the spec: the flat values that appear in a State
Snapshot (spec §3: Text, Boolean, Selection, MultipleSelection, scalar
and range numerics; a Button carries no value). -/
inductive Value where
  | str (s : String)
  | bool (b : Bool)
  | int (n : Int)
  | rat (q : Rat)
  | intPair (lo hi : Int)
  | ratPair (lo hi : Rat)
  | strList (ss : List String)

deriving instance DecidableEq for Value

/-- Modelled from the spec: a State Snapshot is an ordered flat mapping
from parameter name to current value (spec §3). -/
def Snapshot : Type := List (String × Value)

instance : DecidableEq Snapshot := by
  unfold Snapshot
  infer_instance

/-- Modelled from the spec: the per-type update payloads of the
`update_*` methods (spec §4.1).  Each field is optional; `none` is the
dedicated `NoUpdate` sentinel meaning "field not supplied", kept distinct
from every valid payload value (spec §9, syd.support's `NoUpdate`
singleton). -/
inductive Upd where
  | text (value : Option String)
  | boolean (value : Option Bool)
  | selection (value : Option String) (options : Option (List String))
  | multipleSelection (value : Option (List String)) (options : Option (List String))
  | integer (value mn mx : Option Int)
  | float (value mn mx step : Option Rat)
  | integerRange (value : Option (Int × Int)) (mn mx : Option Int)
  | floatRange (value : Option (Rat × Rat)) (mn mx : Option Rat) (step : Option Rat)
  | unboundedInteger (value : Option Int)
  | unboundedFloat (value : Option Rat) (step : Option (Option Rat))
  | button (label : Option String) (replot : Option Bool)

deriving instance DecidableEq for Upd

/-- Modelled from the spec: a registered callback handle.  A callback is
external user code run with a State Snapshot; its observable effect on the
engine is the sequence of `apply_update` calls it issues (spec §3, §4.3).
The `id` field identifies the callback in execution traces. -/
structure Callback where
  id : Nat
  run : Snapshot → List (String × Upd)

/-- Modelled from the spec: the closed tagged variant of Parameter types
(spec §3): Text, Boolean, Selection, MultipleSelection, Integer, Float,
IntegerRange, FloatRange, UnboundedInteger, UnboundedFloat, Button.
Selection options are modelled over `String` (the spec only requires that
option elements support equality). -/
inductive Param where
  | text (value : String)
  | boolean (value : Bool)
  | selection (value : String) (options : List String)
  | multipleSelection (value : List String) (options : List String)
  | integer (value mn mx : Int)
  | float (value mn mx step : Rat)
  | integerRange (low high mn mx : Int)
  | floatRange (low high mn mx step : Rat)
  | unboundedInteger (value : Int)
  | unboundedFloat (value : Rat) (step : Option Rat)
  | button (label : String) (replot : Bool) (callback : Callback)

/-- Modelled from the spec: the tag of a Parameter variant, used to state
that a parameter keeps the type it was created with. -/
inductive PKind where
  | text
  | boolean
  | selection
  | multipleSelection
  | integer
  | float
  | integerRange
  | floatRange
  | unboundedInteger
  | unboundedFloat
  | button

deriving instance DecidableEq for PKind

/-- Modelled from the spec: the variant tag of a parameter. -/
def Param.kind : Param → PKind
  | .text _ => .text
  | .boolean _ => .boolean
  | .selection _ _ => .selection
  | .multipleSelection _ _ => .multipleSelection
  | .integer _ _ _ => .integer
  | .float _ _ _ _ => .float
  | .integerRange _ _ _ _ => .integerRange
  | .floatRange _ _ _ _ _ => .floatRange
  | .unboundedInteger _ => .unboundedInteger
  | .unboundedFloat _ _ => .unboundedFloat
  | .button _ _ _ => .button

/-- Modelled from the spec: `Parameter.update` (spec §4.1–§4.2 and the
reconciliation policy).  Omitted fields (the `none` sentinel) are left
untouched.  Numeric bounds are swapped when supplied inverted, values are
clamped into the (possibly new) bounds, Float values are rounded to the
nearest multiple of `step` measured from the lower bound and clamped,
range values with `low > high` are swapped.  A Selection update with an
explicit value outside the (possibly new) options fails with
`ParameterUpdateError`; without an explicit value the current value
migrates to the first new option with a warning.  Every silent adjustment
is reported through the returned `Bool` warning flag
(`ParameterUpdateWarning`).  Using an update payload of a different
variant than the parameter fails with `TypeError` (type consistency of
the planning notes).  Empty options fail with `ParameterAddError`. -/
def Param.update : Param → Upd → Except Err (Param × Bool)
  | .text v, .text uv => .ok (.text (uv.getD v), false)
  | .boolean b, .boolean ub => .ok (.boolean (ub.getD b), false)
  | .selection v opts, .selection uv uopts =>
    match uopts.getD opts with
    | [] => .error .parameterAddError
    | o :: rest =>
      match uv with
      | some z =>
        if z ∈ o :: rest then .ok (.selection z (o :: rest), false)
        else .error .parameterUpdateError
      | none =>
        if v ∈ o :: rest then .ok (.selection v (o :: rest), false)
        else .ok (.selection o (o :: rest), true)
  | .multipleSelection v opts, .multipleSelection uv uopts =>
    match uopts.getD opts with
    | [] => .error .parameterAddError
    | o :: rest =>
      match uv with
      | some zs =>
        if ∀ z ∈ zs, z ∈ o :: rest then .ok (.multipleSelection zs (o :: rest), false)
        else .error .parameterUpdateError
      | none =>
        let v' := v.filter (fun z => decide (z ∈ o :: rest))
        if v' = v then .ok (.multipleSelection v' (o :: rest), false)
        else .ok (.multipleSelection v' (o :: rest), true)
  | .integer v mn mx, .integer uv umn umx =>
    let mn0 := umn.getD mn
    let mx0 := umx.getD mx
    let lo := min mn0 mx0
    let hi := max mn0 mx0
    let vreq := uv.getD v
    let v' := clampV lo hi vreq
    .ok (.integer v' lo hi, decide (mx0 < mn0) || decide (v' ≠ vreq))
  | .float v mn mx st, .float uv umn umx ust =>
    let mn0 := umn.getD mn
    let mx0 := umx.getD mx
    let lo := min mn0 mx0
    let hi := max mn0 mx0
    let st' := ust.getD st
    let vreq := uv.getD v
    let v' := clampV lo hi (roundStep lo st' (clampV lo hi vreq))
    .ok (.float v' lo hi st', decide (mx0 < mn0) || decide (v' ≠ vreq))
  | .integerRange l h mn mx, .integerRange uval umn umx =>
    let mn0 := umn.getD mn
    let mx0 := umx.getD mx
    let lo := min mn0 mx0
    let hi := max mn0 mx0
    let req := uval.getD (l, h)
    let l' := clampV lo hi (min req.1 req.2)
    let h' := clampV lo hi (max req.1 req.2)
    .ok (.integerRange l' h' lo hi, decide (mx0 < mn0) || decide ((l', h') ≠ req))
  | .floatRange l h mn mx st, .floatRange uval umn umx ust =>
    let mn0 := umn.getD mn
    let mx0 := umx.getD mx
    let lo := min mn0 mx0
    let hi := max mn0 mx0
    let st' := ust.getD st
    let req := uval.getD (l, h)
    let l' := clampV lo hi (roundStep lo st' (clampV lo hi (min req.1 req.2)))
    let h' := clampV lo hi (roundStep lo st' (clampV lo hi (max req.1 req.2)))
    .ok (.floatRange l' h' lo hi st', decide (mx0 < mn0) || decide ((l', h') ≠ req))
  | .unboundedInteger v, .unboundedInteger uv => .ok (.unboundedInteger (uv.getD v), false)
  | .unboundedFloat v st, .unboundedFloat uv ust =>
    let st' := ust.getD st
    let vreq := uv.getD v
    let v' := match st' with
      | some s => if 0 < s then (ratRound (vreq / s) : Rat) * s else vreq
      | none => vreq
    .ok (.unboundedFloat v' st', decide (v' ≠ vreq))
  | .button lbl rp cb, .button ulbl urp => .ok (.button (ulbl.getD lbl) (urp.getD rp) cb, false)
  | _, _ => .error .typeError

/-- Modelled from the spec: the snapshot contribution of one parameter
(spec §3: a Button carries no value, every other parameter contributes
its current value). -/
def Param.valueOf : Param → Option Value
  | .text v => some (.str v)
  | .boolean b => some (.bool b)
  | .selection v _ => some (.str v)
  | .multipleSelection v _ => some (.strList v)
  | .integer v _ _ => some (.int v)
  | .float v _ _ _ => some (.rat v)
  | .integerRange l h _ _ => some (.intPair l h)
  | .floatRange l h _ _ _ => some (.ratPair l h)
  | .unboundedInteger v => some (.int v)
  | .unboundedFloat v _ => some (.rat v)
  | .button _ _ _ => none

/-- Modelled from the spec: the State Snapshot is recomputed by reading
every parameter's current value, in registry order (spec §3). -/
def snapshotOf (ps : List (String × Param)) : Snapshot :=
  ps.filterMap (fun np => (np.2.valueOf).map (fun v => (np.1, v)))

/-- Modelled from the spec: the two-phase lifecycle (spec §3 Registry,
§4.3): `configuring` initially, `live` after deploy, never reversed. -/
inductive Phase where
  | configuring
  | live

deriving instance DecidableEq for Phase

/-- Modelled from the spec: the engine instance (spec §2, §5, §6): phase,
ordered Parameter Registry, ordered Callback Registry, the external
render function, and the single mutable "last rendered artifact" slot
(`None` before the first render). -/
structure Engine (A : Type) where
  phase : Phase
  params : List (String × Param)
  callbacks : List (String × List Callback)
  render : Snapshot → A
  lastArtifact : Option A

/-- Modelled from the spec: lookup in an ordered name-keyed mapping. -/
def lookupP {α : Type} : List (String × α) → String → Option α
  | [], _ => none
  | (k, v) :: rest, n => if k = n then some v else lookupP rest n

/-- Modelled from the spec: in-place replacement of the entry named `n`
in an ordered name-keyed mapping (order preserved). -/
def setP {α : Type} : List (String × α) → String → α → List (String × α)
  | [], _, _ => []
  | (k, v) :: rest, n, v' => if k = n then (k, v') :: rest else (k, v) :: setP rest n v'

/-- Modelled from the spec: `Registry.add` (spec §4.2): fails with
`RuntimeError` if the engine phase is live, with `ParameterAddError` if
the name is already present; otherwise appends the parameter. -/
def Engine.addParam {A : Type} (e : Engine A) (n : String) (p : Param) :
    Except Err (Engine A) :=
  if e.phase = .live then .error .runtimeError
  else
    match lookupP e.params n with
    | some _ => .error .parameterAddError
    | none => .ok { e with params := e.params ++ [(n, p)] }

/-- Modelled from the spec: `apply_update(name, **fields)` (spec §4.2):
fails with `ParameterUpdateError` if the engine phase is still
configuring or the name is absent; otherwise delegates to
`Parameter.update` and stores the reconciled parameter.  Crucially it
does NOT invoke any registered callback (spec §4.3 step 5). -/
def Engine.applyUpdate {A : Type} (e : Engine A) (n : String) (u : Upd) :
    Except Err (Engine A × Bool) :=
  if e.phase = .configuring then .error .parameterUpdateError
  else
    match lookupP e.params n with
    | none => .error .parameterUpdateError
    | some p =>
      match p.update u with
      | .error err => .error err
      | .ok (p', w) => .ok ({ e with params := setP e.params n p' }, w)

/-- Modelled from the spec: the typed `update_float` method (spec §6),
a thin wrapper building the Float update payload. -/
def Engine.updateFloat {A : Type} (e : Engine A) (n : String)
    (uv umn umx ust : Option Rat) : Except Err (Engine A × Bool) :=
  e.applyUpdate n (.float uv umn umx ust)

/-- Modelled from the spec: the typed `update_integer` method (spec §6). -/
def Engine.updateInteger {A : Type} (e : Engine A) (n : String)
    (uv umn umx : Option Int) : Except Err (Engine A × Bool) :=
  e.applyUpdate n (.integer uv umn umx)

/-- Modelled from the spec: the read-only `state` accessor (spec §6),
recomputed fresh from the registry. -/
def Engine.snapshot {A : Type} (e : Engine A) : Snapshot :=
  snapshotOf e.params

/-- Modelled from the spec: applying the sequence of `apply_update` calls
issued by one callback, strictly in order; an error aborts the rest
(spec §4.3 failure semantics, no rollback). -/
def applyActs {A : Type} (e : Engine A) : List (String × Upd) → Except Err (Engine A)
  | [] => .ok e
  | (n, u) :: rest =>
    match e.applyUpdate n u with
    | .error err => .error err
    | .ok (e', _) => applyActs e' rest

/-- Modelled from the spec: running the callbacks registered for the
triggered parameter, strictly sequentially in registration order, each
invoked with the SAME snapshot `S` computed once after the root update
(spec §4.3 steps 3–5).  The callbacks' own `apply_update` calls are
applied through `Engine.applyUpdate`, which never invokes further
callbacks.  The returned trace records, in execution order, each invoked
callback's id together with the snapshot it was handed. -/
def runCallbacks {A : Type} (e : Engine A) (S : Snapshot) :
    List Callback → Except Err (Engine A × List (Nat × Snapshot))
  | [] => .ok (e, [])
  | c :: rest =>
    match applyActs e (c.run S) with
    | .error err => .error err
    | .ok e' =>
      match runCallbacks e' S rest with
      | .error err => .error err
      | .ok (e'', tr) => .ok (e'', (c.id, S) :: tr)

/-- Modelled from the spec: the callbacks registered for a parameter, in
registration order (spec §3 Callback Registry). -/
def cbsFor {A : Type} (e : Engine A) (n : String) : List Callback :=
  (lookupP e.callbacks n).getD []

/-- Modelled from the spec: converting the raw value carried by an
external trigger into a value-only update payload for the target
parameter's own type (spec §4.3 step 1). -/
def valueUpd : Param → Value → Option Upd
  | .text _, .str s => some (.text (some s))
  | .boolean _, .bool b => some (.boolean (some b))
  | .selection _ _, .str s => some (.selection (some s) none)
  | .multipleSelection _ _, .strList ss => some (.multipleSelection (some ss) none)
  | .integer _ _ _, .int n => some (.integer (some n) none none)
  | .float _ _ _ _, .rat q => some (.float (some q) none none none)
  | .integerRange _ _ _ _, .intPair a b => some (.integerRange (some (a, b)) none none)
  | .floatRange _ _ _ _ _, .ratPair a b => some (.floatRange (some (a, b)) none none none)
  | .unboundedInteger _, .int n => some (.unboundedInteger (some n))
  | .unboundedFloat _ _, .rat q => some (.unboundedFloat (some q) none)
  | _, _ => none

/-- Modelled from the spec: the dispatch protocol for a parameter value
change trigger (spec §4.3 steps 1–5 and 7): validate the name, update the
root parameter's value, compute the snapshot S1 once, run the registered
callbacks for that name in order with S1 (their `apply_update` calls do
not trigger further callbacks), recompute the final snapshot, render and
store the artifact.  The trace of invoked callbacks is returned alongside
the final engine. -/
def Engine.dispatch {A : Type} (e : Engine A) (n : String) (raw : Value) :
    Except Err (Engine A × List (Nat × Snapshot)) :=
  match lookupP e.params n with
  | none => .error .parameterUpdateError
  | some p =>
    match valueUpd p raw with
    | none => .error .parameterUpdateError
    | some u =>
      match e.applyUpdate n u with
      | .error err => .error err
      | .ok (e1, _) =>
        match runCallbacks e1 e1.snapshot (cbsFor e n) with
        | .error err => .error err
        | .ok (e2, tr) =>
          .ok ({ e2 with lastArtifact := some (e2.render e2.snapshot) }, tr)

/-- Modelled from the spec: the dispatch protocol for a Button press
trigger (spec §4.3 step 6): invoke the button's own callback with the
current snapshot, apply its `apply_update` calls (no registered callback
is triggered), then render only when the button's `replot` flag is true;
with `replot = false` the trigger terminates without rendering even if
parameters changed. -/
def Engine.dispatchButton {A : Type} (e : Engine A) (n : String) :
    Except Err (Engine A) :=
  match lookupP e.params n with
  | some (.button _ rp cb) =>
    match applyActs e (cb.run e.snapshot) with
    | .error err => .error err
    | .ok e' =>
      if rp then .ok { e' with lastArtifact := some (e'.render e'.snapshot) }
      else .ok e'
  | _ => .error .parameterUpdateError

/-- Modelled from the spec: `add_text` creation; omitted initial value
defaults to the empty string (spec §4.1). -/
def createText (v : Option String) : Param := .text (v.getD "")

/-- Modelled from the spec: `add_boolean` creation; omitted initial value
defaults to `False` (spec §4.1). -/
def createBoolean (v : Option Bool) : Param := .boolean (v.getD false)

/-- Modelled from the spec: `add_selection` creation; empty options fail
with `ParameterAddError`, an explicit value outside the options fails,
and an omitted initial value defaults to the first option (spec §4.1). -/
def createSelection (opts : List String) (v : Option String) : Except Err Param :=
  match opts with
  | [] => .error .parameterAddError
  | o :: rest =>
    match v with
    | some z =>
      if z ∈ o :: rest then .ok (.selection z (o :: rest))
      else .error .parameterAddError
    | none => .ok (.selection o (o :: rest))

/-- Modelled from the spec: `add_multiple_selection` creation; omitted
initial value defaults to the empty sequence (spec §4.1). -/
def createMultipleSelection (opts : List String) (v : Option (List String)) :
    Except Err Param :=
  match opts with
  | [] => .error .parameterAddError
  | o :: rest =>
    match v with
    | some zs =>
      if ∀ z ∈ zs, z ∈ o :: rest then .ok (.multipleSelection zs (o :: rest))
      else .error .parameterAddError
    | none => .ok (.multipleSelection [] (o :: rest))

/-- Modelled from the spec: `add_integer` creation; inverted bounds are
swapped, the supplied value is clamped, and an omitted initial value
defaults to the minimum (spec §4.1, SKILLS defaults table). -/
def createInteger (mn mx : Int) (v : Option Int) : Param :=
  let lo := min mn mx
  let hi := max mn mx
  .integer (clampV lo hi (v.getD lo)) lo hi

/-- Modelled from the spec: `add_float` creation; inverted bounds are
swapped, the supplied value is clamped and rounded to the step grid, and
an omitted initial value defaults to the minimum (spec §4.1).  The step
defaults to 1/100 when omitted (SKILLS defaults table). -/
def createFloat (mn mx : Rat) (st : Option Rat) (v : Option Rat) : Param :=
  let lo := min mn mx
  let hi := max mn mx
  let st' := st.getD (1 / 100)
  .float (clampV lo hi (roundStep lo st' (clampV lo hi (v.getD lo)))) lo hi st'

/-- Modelled from the spec: `add_integer_range` creation; omitted initial
value defaults to the full range `(min, max)`, an inverted supplied pair
is swapped and both ends are clamped (spec §3, SKILLS defaults table). -/
def createIntegerRange (mn mx : Int) (v : Option (Int × Int)) : Param :=
  let lo := min mn mx
  let hi := max mn mx
  let req := v.getD (lo, hi)
  .integerRange (clampV lo hi (min req.1 req.2)) (clampV lo hi (max req.1 req.2)) lo hi

/-- Modelled from the spec: `add_unbounded_integer` creation; omitted
initial value defaults to `0` (spec §4.1). -/
def createUnboundedInteger (v : Option Int) : Param :=
  .unboundedInteger (v.getD 0)

/-- Modelled from the spec: `add_unbounded_float` creation; omitted
initial value defaults to `0.0` and the step is optional (spec §4.1). -/
def createUnboundedFloat (v : Option Rat) (st : Option Rat) : Param :=
  .unboundedFloat (v.getD 0) st

/-- Modelled from the spec: `add_button` creation; the label defaults to
the button's name and `replot` defaults to true (SKILLS defaults
table). -/
def createButton (n : String) (cb : Callback) (lbl : Option String)
    (rp : Option Bool) : Param :=
  .button (lbl.getD n) (rp.getD true) cb

/-- Modelled from the spec: the update payload whose every field carries
the parameter's own current value (used to state idempotence of
`update`). -/
def currentUpd : Param → Upd
  | .text v => .text (some v)
  | .boolean b => .boolean (some b)
  | .selection v opts => .selection (some v) (some opts)
  | .multipleSelection v opts => .multipleSelection (some v) (some opts)
  | .integer v mn mx => .integer (some v) (some mn) (some mx)
  | .float v mn mx st => .float (some v) (some mn) (some mx) (some st)
  | .integerRange l h mn mx => .integerRange (some (l, h)) (some mn) (some mx)
  | .floatRange l h mn mx st => .floatRange (some (l, h)) (some mn) (some mx) (some st)
  | .unboundedInteger v => .unboundedInteger (some v)
  | .unboundedFloat v st => .unboundedFloat (some v) (some st)
  | .button lbl rp _ => .button (some lbl) (some rp)

/-- Modelled from the spec: the per-variant validity invariant of a
parameter's stored state (spec §3): values inside bounds, range ends
ordered, selection values among the options, Float values on the step
grid with a positive step. -/
def Wf : Param → Prop
  | .text _ => True
  | .boolean _ => True
  | .selection v opts => v ∈ opts
  | .multipleSelection v opts => (∀ z ∈ v, z ∈ opts) ∧ opts ≠ []
  | .integer v mn mx => mn ≤ v ∧ v ≤ mx
  | .float v mn mx st => mn ≤ v ∧ v ≤ mx ∧ 0 < st ∧ ∃ k : ℤ, v = mn + k * st
  | .integerRange l h mn mx => mn ≤ l ∧ l ≤ h ∧ h ≤ mx
  | .floatRange l h mn mx st =>
      mn ≤ l ∧ l ≤ h ∧ h ≤ mx ∧ 0 < st ∧
        (∃ k : ℤ, l = mn + k * st) ∧ (∃ k : ℤ, h = mn + k * st)
  | .unboundedInteger _ => True
  | .unboundedFloat v st => ∀ s, st = some s → 0 < s → ∃ k : ℤ, v = k * s
  | .button _ _ _ => True

/-- Modelled from the spec: the bound invariants of the four bounded
numeric variants (spec §8 first property); trivially true for the other
variants. -/
def boundsOk : Param → Prop
  | .integer v mn mx => mn ≤ v ∧ v ≤ mx ∧ mn ≤ mx
  | .float v mn mx _ => mn ≤ v ∧ v ≤ mx ∧ mn ≤ mx
  | .integerRange l h mn mx => mn ≤ l ∧ l ≤ h ∧ h ≤ mx ∧ mn ≤ mx
  | .floatRange l h mn mx _ => mn ≤ l ∧ l ≤ h ∧ h ≤ mx ∧ mn ≤ mx
  | _ => True

/-- Modelled from the spec: the snapshot S1 computed once after the root
value update of a dispatch (spec §4.3 step 2), or `none` when the root
update cannot be performed. -/
def rootSnap {A : Type} (e : Engine A) (n : String) (raw : Value) : Option Snapshot :=
  match lookupP e.params n with
  | none => none
  | some p =>
    match valueUpd p raw with
    | none => none
    | some u =>
      match e.applyUpdate n u with
      | .error _ => none
      | .ok (e1, _) => some e1.snapshot

/-- Whether an engine operation succeeded. -/
def isOkE {β : Type} : Except Err β → Bool
  | .ok _ => true
  | .error _ => false

/-- A sample callback registered on parameter "a": it issues an
`apply_update` on the distinct parameter "b". -/
def cbMoveB : Callback :=
  { id := 1, run := fun _ => [("b", Upd.integer (some 5) none none)] }

/-- A second sample callback registered on parameter "a". -/
def cbNoop : Callback :=
  { id := 2, run := fun _ => [] }

/-- A sample callback registered on parameter "b"; it must not run when a
trigger on "a" merely updates "b" through another callback. -/
def cbOnB : Callback :=
  { id := 3, run := fun _ => [("a", Upd.integer (some 9) none none)] }

/-- A sample live engine: two integer parameters and one float parameter,
callbacks `[cbMoveB, cbNoop]` on "a" and `[cbOnB]` on "b"; the render
function counts the snapshot entries. -/
def engineA : Engine Nat :=
  { phase := .live
    params := [("a", Param.integer 0 0 10), ("b", Param.integer 0 0 10),
               ("f", Param.float 1 0 2 (1 / 100))]
    callbacks := [("a", [cbMoveB, cbNoop]), ("b", [cbOnB])]
    render := fun s => s.length
    lastArtifact := none }

/-- The engine of `engineA` still in the configuring phase. -/
def engineC : Engine Nat :=
  { engineA with phase := .configuring }

/-- The dispatch result of a trigger setting "a" to 4 on `engineA`. -/
def dispA : Engine Nat × List (Nat × Snapshot) :=
  ((engineA.dispatch "a" (Value.int 4)).toOption).getD (engineA, [])

/-- The snapshot of `engineA` right after the root update of "a" to 4. -/
def snapA : Snapshot :=
  [("a", Value.int 4), ("b", Value.int 0), ("f", Value.rat 1)]

/-- A sample button callback: it mutates the other parameter "x". -/
def cbPress : Callback :=
  { id := 7, run := fun _ => [("x", Upd.integer (some 3) none none)] }

/-- A sample live engine with one integer parameter and two buttons whose
callbacks mutate "x": "off" has `replot = false`, "on" has
`replot = true`.  An artifact has already been rendered. -/
def engineB : Engine Nat :=
  { phase := .live
    params := [("x", Param.integer 0 0 10),
               ("off", Param.button "off" false cbPress),
               ("on", Param.button "on" true cbPress)]
    callbacks := []
    render := fun s => s.length
    lastArtifact := some 42 }

/-- The engine after pressing the `replot = false` button of `engineB`. -/
def engineBoff : Engine Nat :=
  ((engineB.dispatchButton "off").toOption).getD engineB

/-- The engine after pressing the `replot = true` button of `engineB`. -/
def engineBon : Engine Nat :=
  ((engineB.dispatchButton "on").toOption).getD engineB

/-- A sample well-formed float parameter on the step grid. -/
def floatP : Param := Param.float 1 0 2 (1 / 100)

theorem clampV_le {α : Type} [LinearOrder α] (lo hi v : α) : clampV lo hi v ≤ hi :=
  min_le_left _ _

theorem le_clampV {α : Type} [LinearOrder α] {lo hi : α} (h : lo ≤ hi) (v : α) :
    lo ≤ clampV lo hi v :=
  le_min h (le_max_left _ _)

theorem clampV_mono {α : Type} [LinearOrder α] (lo hi : α) {a b : α} (h : a ≤ b) :
    clampV lo hi a ≤ clampV lo hi b :=
  min_le_min le_rfl (max_le_max le_rfl h)

theorem clampV_eq_self {α : Type} [LinearOrder α] {lo hi v : α} (h1 : lo ≤ v)
    (h2 : v ≤ hi) : clampV lo hi v = v := by
  unfold clampV
  rw [max_eq_right h1, min_eq_right h2]

theorem ratRound_mono {a b : Rat} (h : a ≤ b) : ratRound a ≤ ratRound b :=
  Int.floor_le_floor (by linarith)

theorem ratRound_intCast (k : ℤ) : ratRound (k : Rat) = k := by
  unfold ratRound
  have h2 : ⌊(1 / 2 : ℚ)⌋ = 0 := by norm_num
  rw [Int.floor_int_add, h2, add_zero]

theorem roundStep_mono (lo st : Rat) {a b : Rat} (h : a ≤ b) :
    roundStep lo st a ≤ roundStep lo st b := by
  unfold roundStep
  split
  · next hst =>
    have hdiv : (a - lo) / st ≤ (b - lo) / st :=
      (div_le_div_iff_of_pos_right hst).mpr (sub_le_sub_right h lo)
    have hr : ratRound ((a - lo) / st) ≤ ratRound ((b - lo) / st) := ratRound_mono hdiv
    have hc : ((ratRound ((a - lo) / st) : ℤ) : ℚ) ≤ ((ratRound ((b - lo) / st) : ℤ) : ℚ) :=
      Int.cast_le.mpr hr
    exact add_le_add_left (mul_le_mul_of_nonneg_right hc (le_of_lt hst)) lo
  · exact h

theorem roundStep_fixed (lo st : Rat) (k : ℤ) :
    roundStep lo st (lo + k * st) = lo + k * st := by
  unfold roundStep
  split
  · next hst =>
    have hdiv : (lo + (k : ℚ) * st - lo) / st = (k : ℚ) := by
      field_simp
    rw [hdiv, ratRound_intCast]
  · rfl

theorem update_kind (p : Param) (u : Upd) (p' : Param) (w : Bool)
    (h : Param.update p u = .ok (p', w)) : p'.kind = p.kind := by
  cases p <;> cases u <;> simp only [Param.update] at h <;>
    (try (repeat' split at h)) <;> (try simp at h) <;>
    (obtain ⟨h1, h2⟩ := h
     subst h1
     rfl)

theorem applyUpdate_frame {A : Type} (e : Engine A) (n : String) (u : Upd)
    (e1 : Engine A) (w : Bool) (h : e.applyUpdate n u = .ok (e1, w)) :
    e1.render = e.render ∧ e1.lastArtifact = e.lastArtifact ∧
      e1.callbacks = e.callbacks ∧ e1.phase = e.phase := by
  unfold Engine.applyUpdate at h
  repeat' split at h
  all_goals simp at h
  obtain ⟨h1, h2⟩ := h
  subst h1
  exact ⟨rfl, rfl, rfl, rfl⟩

theorem applyActs_frame {A : Type} :
    ∀ (acts : List (String × Upd)) (e e' : Engine A), applyActs e acts = .ok e' →
      e'.render = e.render ∧ e'.lastArtifact = e.lastArtifact ∧
        e'.callbacks = e.callbacks ∧ e'.phase = e.phase := by
  intro acts
  induction acts with
  | nil =>
    intro e e' h
    simp [applyActs] at h
    subst h
    exact ⟨rfl, rfl, rfl, rfl⟩
  | cons a rest ih =>
    intro e e' h
    unfold applyActs at h
    split at h
    · simp at h
    · next e1 w heq =>
      obtain ⟨r1, l1, c1, p1⟩ := applyUpdate_frame _ _ _ _ _ heq
      obtain ⟨r2, l2, c2, p2⟩ := ih _ _ h
      exact ⟨r2.trans r1, l2.trans l1, c2.trans c1, p2.trans p1⟩

theorem runCallbacks_trace {A : Type} (S : Snapshot) :
    ∀ (cbs : List Callback) (e e' : Engine A) (tr : List (Nat × Snapshot)),
      runCallbacks e S cbs = .ok (e', tr) → tr = cbs.map (fun c => (c.id, S)) := by
  intro cbs
  induction cbs with
  | nil =>
    intro e e' tr h
    simp [runCallbacks] at h
    simp [h.2.symm]
  | cons c rest ih =>
    intro e e' tr h
    unfold runCallbacks at h
    split at h
    · simp at h
    · split at h
      · simp at h
      · next e2 tr2 hR =>
        simp at h
        rw [← h.2, List.map_cons]
        rw [ih _ _ _ hR]

theorem boundsOk_of_kind_ne (p' : Param)
    (h1 : p'.kind ≠ .integer) (h2 : p'.kind ≠ .float)
    (h3 : p'.kind ≠ .integerRange) (h4 : p'.kind ≠ .floatRange) : boundsOk p' := by
  cases p' <;> simp_all [Param.kind, boundsOk]

/-- C1: for every bounded numeric parameter (Integer, Float, IntegerRange,
FloatRange), after any successful update the stored state satisfies
`min ≤ value ≤ max` (for range types `min ≤ low ≤ high ≤ max`), and when
the update supplied inverted bounds the stored bounds are swapped so that
`min ≤ max` holds afterwards. -/
theorem bounded_update_respects_bounds
    (p : Param) (u : Upd) (p' : Param) (w : Bool)
    (h : Param.update p u = .ok (p', w)) : boundsOk p' := by
  have hk := update_kind p u p' w h
  cases p
  case integer v mn mx =>
    cases u <;> simp only [Param.update] at h <;> first
    | exact Except.noConfusion h
    | (simp at h
       obtain ⟨h1, h2⟩ := h
       subst h1
       exact ⟨le_clampV min_le_max _, clampV_le _ _ _, min_le_max⟩)
  case float v mn mx st =>
    cases u <;> simp only [Param.update] at h <;> first
    | exact Except.noConfusion h
    | (simp at h
       obtain ⟨h1, h2⟩ := h
       subst h1
       exact ⟨le_clampV min_le_max _, clampV_le _ _ _, min_le_max⟩)
  case integerRange l hgh mn mx =>
    cases u <;> simp only [Param.update] at h <;> first
    | exact Except.noConfusion h
    | (simp at h
       obtain ⟨h1, h2⟩ := h
       subst h1
       exact ⟨le_clampV min_le_max _, clampV_mono _ _ min_le_max,
         clampV_le _ _ _, min_le_max⟩)
  case floatRange l hgh mn mx st =>
    cases u <;> simp only [Param.update] at h <;> first
    | exact Except.noConfusion h
    | (simp at h
       obtain ⟨h1, h2⟩ := h
       subst h1
       exact ⟨le_clampV min_le_max _,
         clampV_mono _ _ (roundStep_mono _ _ (clampV_mono _ _ min_le_max)),
         clampV_le _ _ _, min_le_max⟩)
  all_goals
    exact boundsOk_of_kind_ne p' (by rw [hk]; simp [Param.kind])
      (by rw [hk]; simp [Param.kind]) (by rw [hk]; simp [Param.kind])
      (by rw [hk]; simp [Param.kind])

/-- C1 witness: updating the integer parameter with inverted bounds
`min = 9 > max = 2` and value 100 stores swapped bounds and a clamped
value satisfying the invariant. -/
theorem bounded_update_respects_bounds_witness :
    boundsOk (Param.integer 9 2 9) :=
  bounded_update_respects_bounds (Param.integer 5 0 10)
    (Upd.integer (some 100) (some 9) (some 2)) (Param.integer 9 2 9) true
    (by rfl)

/-- C10: invoking an update method of a different parameter type on a
registered parameter (for example `update_integer` on a Float parameter)
raises `TypeError`, and every successful update preserves the variant
tag, so a parameter keeps the type it was created with. -/
theorem wrong_type_update_rejected {A : Type} :
    (∀ (e : Engine A) (n : String) (p : Param) (uv umn umx : Option Int),
      e.phase = .live → lookupP e.params n = some p → p.kind ≠ .integer →
      e.updateInteger n uv umn umx = .error .typeError) ∧
    (∀ (p : Param) (u : Upd) (p' : Param) (w : Bool),
      Param.update p u = .ok (p', w) → p'.kind = p.kind) := by
  constructor
  · intro e n p uv umn umx hp hl hk
    have hupd : Param.update p (Upd.integer uv umn umx) = .error .typeError := by
      cases p <;> simp [Param.kind] at hk <;> rfl
    simp [Engine.updateInteger, Engine.applyUpdate, hp, hl, hupd]
  · exact fun p u p' w h => update_kind p u p' w h

/-- C10 witness: `update_integer` on the live float parameter "f" of
`engineA` fails with `TypeError`, and a successful float update keeps the
float tag. -/
theorem wrong_type_update_rejected_witness :
    engineA.updateInteger "f" none none none = .error .typeError ∧
    (Param.integer 7 0 10).kind = (Param.integer 5 0 10).kind :=
  ⟨(@wrong_type_update_rejected Nat).1 engineA "f" floatP none none none rfl rfl
      (by decide),
   (@wrong_type_update_rejected Nat).2 (Param.integer 5 0 10)
      (Upd.integer (some 7) none none) (Param.integer 7 0 10) false (by rfl)⟩

/-- C5: in the Live phase `add_*` raises `RuntimeError` while `update_*`
on an existing parameter succeeds; `apply_update` fails with
`ParameterUpdateError` whenever the engine is still Configuring or the
named parameter is absent. -/
theorem phase_rules {A : Type} :
    (∀ (e : Engine A) (n : String) (p : Param),
      e.phase = .live → e.addParam n p = .error .runtimeError) ∧
    (∀ (e : Engine A) (n : String) (v mn mx st : Rat) (uv umn umx ust : Option Rat),
      e.phase = .live → lookupP e.params n = some (.float v mn mx st) →
      isOkE (e.updateFloat n uv umn umx ust) = true) ∧
    (∀ (e : Engine A) (n : String) (u : Upd),
      e.phase = .configuring → e.applyUpdate n u = .error .parameterUpdateError) ∧
    (∀ (e : Engine A) (n : String) (u : Upd),
      e.phase = .live → lookupP e.params n = none →
      e.applyUpdate n u = .error .parameterUpdateError) := by
  refine ⟨?_, ?_, ?_, ?_⟩
  · intro e n p hp
    simp [Engine.addParam, hp]
  · intro e n v mn mx st uv umn umx ust hp hl
    simp [Engine.updateFloat, Engine.applyUpdate, hp, hl, Param.update, isOkE]
  · intro e n u hp
    simp [Engine.applyUpdate, hp]
  · intro e n u hp hl
    simp [Engine.applyUpdate, hp, hl]

/-- C5 witness: on the live `engineA`, adding fails with `RuntimeError`
and updating the existing float "f" succeeds; `apply_update` fails with
`ParameterUpdateError` on the configuring `engineC` and on an absent
name. -/
theorem phase_rules_witness :
    engineA.addParam "z" (createText none) = .error .runtimeError ∧
    isOkE (engineA.updateFloat "f" (some 2) none none none) = true ∧
    engineC.applyUpdate "a" (Upd.integer (some 1) none none) =
      .error .parameterUpdateError ∧
    engineA.applyUpdate "nope" (Upd.integer (some 1) none none) =
      .error .parameterUpdateError :=
  ⟨(@phase_rules Nat).1 engineA "z" (createText none) rfl,
   (@phase_rules Nat).2.1 engineA "f" 1 0 2 (1 / 100) (some 2) none none none rfl rfl,
   (@phase_rules Nat).2.2.1 engineC "a" (Upd.integer (some 1) none none) rfl,
   (@phase_rules Nat).2.2.2 engineA "nope" (Upd.integer (some 1) none none) rfl rfl⟩

/-- C4: updating a Selection parameter's options without an explicit
value migrates a now-invalid current value to the first new option with a
warning; supplying an explicit value outside the new options raises
`ParameterUpdateError` (so no new state is produced). -/
theorem selection_options_update_migration
    (v : String) (opts : List String) (o : String) (rest : List String) (z : String) :
    (v ∉ o :: rest →
      Param.update (.selection v opts) (.selection none (some (o :: rest))) =
        .ok (.selection o (o :: rest), true)) ∧
    (z ∉ o :: rest →
      Param.update (.selection v opts) (.selection (some z) (some (o :: rest))) =
        .error .parameterUpdateError) := by
  constructor
  · intro hv
    simp [Param.update, hv]
  · intro hz
    simp [Param.update, hz]

/-- C4 witness: the spec's scenario with options `["a","b","c"]` updated
to `["x","y"]`: the value "a" migrates to "x" with a warning, and the
explicit value "z" is rejected. -/
theorem selection_options_update_migration_witness :
    Param.update (.selection "a" ["a", "b", "c"]) (.selection none (some ["x", "y"])) =
      .ok (.selection "x" ["x", "y"], true) ∧
    Param.update (.selection "a" ["a", "b", "c"])
        (.selection (some "z") (some ["x", "y"])) =
      .error .parameterUpdateError :=
  ⟨(selection_options_update_migration "a" ["a", "b", "c"] "x" ["y"] "z").1
      (by decide),
   (selection_options_update_migration "a" ["a", "b", "c"] "x" ["y"] "z").2
      (by decide)⟩

/-- C7: a parameter created without an initial value defaults per type:
the minimum for the bounded scalar numerics, the first option for
Selection, the empty sequence for MultipleSelection, the empty string for
Text, `false` for Boolean, and `0` / `0.0` for the unbounded numerics. -/
theorem default_initial_values :
    (∀ mn mx : Int,
      createInteger mn mx none = .integer (min mn mx) (min mn mx) (max mn mx)) ∧
    (∀ (mn mx : Rat) (st : Option Rat),
      createFloat mn mx st none =
        .float (min mn mx) (min mn mx) (max mn mx) (st.getD (1 / 100))) ∧
    (∀ (o : String) (rest : List String),
      createSelection (o :: rest) none = .ok (.selection o (o :: rest))) ∧
    (∀ (o : String) (rest : List String),
      createMultipleSelection (o :: rest) none =
        .ok (.multipleSelection [] (o :: rest))) ∧
    createText none = .text "" ∧
    createBoolean none = .boolean false ∧
    createUnboundedInteger none = .unboundedInteger 0 ∧
    (∀ st : Option Rat, createUnboundedFloat none st = .unboundedFloat 0 st) := by
  refine ⟨?_, ?_, fun o rest => rfl, fun o rest => rfl, rfl, rfl, rfl, fun st => rfl⟩
  · intro mn mx
    have h1 : clampV (min mn mx) (max mn mx) (min mn mx) = min mn mx :=
      clampV_eq_self le_rfl min_le_max
    simp [createInteger, h1]
  · intro mn mx st
    have h1 : clampV (min mn mx) (max mn mx) (min mn mx) = min mn mx :=
      clampV_eq_self le_rfl min_le_max
    have h2 : roundStep (min mn mx) (st.getD (1 / 100)) (min mn mx) = min mn mx := by
      have h3 := roundStep_fixed (min mn mx) (st.getD (1 / 100)) 0
      simpa using h3
    simp only [createFloat, Option.getD_none]
    rw [h1, h2, h1]

/-- C9: for every well-formed parameter, updating it with every field
equal to its current value produces no warning and leaves the stored
state exactly as it was (update is idempotent on a fixed point). -/
theorem update_idempotent_on_fixed_point (p : Param) (hw : Wf p) :
    Param.update p (currentUpd p) = .ok (p, false) := by
  cases p with
  | text v => rfl
  | boolean b => rfl
  | selection v opts =>
    have hv : v ∈ opts := hw
    cases opts with
    | nil => exact absurd hv (List.not_mem_nil v)
    | cons o rest => simp [Param.update, currentUpd, hv]
  | multipleSelection v opts =>
    obtain ⟨hsub, hne⟩ := hw
    cases opts with
    | nil => exact absurd rfl hne
    | cons o rest =>
      simp [Param.update, currentUpd, hsub]
      intro x hx hxo
      have hx2 := hsub x hx
      simp [List.mem_cons, hxo] at hx2
      exact hx2
  | integer v mn mx =>
    obtain ⟨h1, h2⟩ := hw
    have hmm : mn ≤ mx := le_trans h1 h2
    have e1 : min mn mx = mn := min_eq_left hmm
    have e2 : max mn mx = mx := max_eq_right hmm
    have e3 : clampV mn mx v = v := clampV_eq_self h1 h2
    have e4 : (decide (mx < mn)) = false := decide_eq_false (not_lt.mpr hmm)
    simp [Param.update, currentUpd, e1, e2, e3, e4]
  | float v mn mx st =>
    obtain ⟨h1, h2, hst, k, hk⟩ := hw
    have hmm : mn ≤ mx := le_trans h1 h2
    have e1 : min mn mx = mn := min_eq_left hmm
    have e2 : max mn mx = mx := max_eq_right hmm
    have e3 : clampV mn mx v = v := clampV_eq_self h1 h2
    have e5 : roundStep mn st v = v := by
      rw [hk]
      exact roundStep_fixed mn st k
    have e4 : (decide (mx < mn)) = false := decide_eq_false (not_lt.mpr hmm)
    simp [Param.update, currentUpd, e1, e2, e3, e5, e4]
  | integerRange l hgh mn mx =>
    obtain ⟨h1, h2, h3⟩ := hw
    have hmm : mn ≤ mx := le_trans h1 (le_trans h2 h3)
    have e1 : min mn mx = mn := min_eq_left hmm
    have e2 : max mn mx = mx := max_eq_right hmm
    have e6 : min l hgh = l := min_eq_left h2
    have e7 : max l hgh = hgh := max_eq_right h2
    have e3 : clampV mn mx l = l := clampV_eq_self h1 (le_trans h2 h3)
    have e4 : clampV mn mx hgh = hgh := clampV_eq_self (le_trans h1 h2) h3
    have e5 : (decide (mx < mn)) = false := decide_eq_false (not_lt.mpr hmm)
    simp [Param.update, currentUpd, e1, e2, e6, e7, e3, e4, e5]
  | floatRange l hgh mn mx st =>
    obtain ⟨h1, h2, h3, hst, ⟨k1, hk1⟩, ⟨k2, hk2⟩⟩ := hw
    have hmm : mn ≤ mx := le_trans h1 (le_trans h2 h3)
    have e1 : min mn mx = mn := min_eq_left hmm
    have e2 : max mn mx = mx := max_eq_right hmm
    have e6 : min l hgh = l := min_eq_left h2
    have e7 : max l hgh = hgh := max_eq_right h2
    have e3 : clampV mn mx l = l := clampV_eq_self h1 (le_trans h2 h3)
    have e4 : clampV mn mx hgh = hgh := clampV_eq_self (le_trans h1 h2) h3
    have e8 : roundStep mn st l = l := by
      rw [hk1]
      exact roundStep_fixed mn st k1
    have e9 : roundStep mn st hgh = hgh := by
      rw [hk2]
      exact roundStep_fixed mn st k2
    have e5 : (decide (mx < mn)) = false := decide_eq_false (not_lt.mpr hmm)
    simp [Param.update, currentUpd, e1, e2, e6, e7, e3, e4, e8, e9, e5]
  | unboundedInteger v => rfl
  | unboundedFloat v st =>
    cases st with
    | none => simp [Param.update, currentUpd]
    | some s =>
      by_cases hs : 0 < s
      · obtain ⟨k, hk⟩ := hw s rfl hs
        have e1 : (ratRound (v / s) : Rat) * s = v := by
          rw [hk, mul_div_assoc, div_self (ne_of_gt hs), mul_one, ratRound_intCast]
        simp [Param.update, currentUpd, hs, e1]
      · simp [Param.update, currentUpd, hs]
  | button lbl rp cb => rfl

/-- C9 witness: the fixed-point update of a well-formed integer parameter
returns the identical state with no warning. -/
theorem update_idempotent_on_fixed_point_witness :
    Param.update (Param.integer 5 0 10) (currentUpd (Param.integer 5 0 10)) =
      .ok (Param.integer 5 0 10, false) :=
  update_idempotent_on_fixed_point (Param.integer 5 0 10) ⟨by decide, by decide⟩

/-- C8: omitted update fields are an explicit `NoUpdate` sentinel (`none`)
distinct from every valid payload, so an update supplying only `value`
leaves the stored bounds and step untouched, omitting a Text value leaves
the text unchanged, and explicitly supplying the nil-like empty string is
distinguishable from omission and is applied. -/
theorem noupdate_sentinel_fields_untouched
    (s : String) (v mn mx st x : Rat) (y : Rat) (hmm : mn ≤ mx) :
    (∃ v2 w, Param.update (.float v mn mx st) (.float (some x) none none none) =
      .ok (.float v2 mn mx st, w)) ∧
    Param.update (.text s) (.text none) = .ok (.text s, false) ∧
    Param.update (.text s) (.text (some "")) = .ok (.text "", false) ∧
    (some y : Option Rat) ≠ (none : Option Rat) := by
  refine ⟨?_, rfl, rfl, Option.some_ne_none y⟩
  have e1 : min mn mx = mn := min_eq_left hmm
  have e2 : max mn mx = mx := max_eq_right hmm
  refine ⟨clampV mn mx (roundStep mn st (clampV mn mx x)),
    decide (mx < mn) || decide (clampV mn mx (roundStep mn st (clampV mn mx x)) ≠ x), ?_⟩
  simp only [Param.update, Option.getD_none, Option.getD_some, e1, e2]

/-- C8 witness: supplying only a value to a float parameter keeps its
bounds and step; the text cases and the sentinel distinctness at concrete
inputs. -/
theorem noupdate_sentinel_fields_untouched_witness :
    (∃ v2 w, Param.update (.float 1 0 2 (1 / 100)) (.float (some 3) none none none) =
      .ok (.float v2 0 2 (1 / 100), w)) ∧
    Param.update (.text "hello") (.text none) = .ok (.text "hello", false) ∧
    Param.update (.text "hello") (.text (some "")) = .ok (.text "", false) ∧
    (some (0 : Rat) : Option Rat) ≠ (none : Option Rat) :=
  noupdate_sentinel_fields_untouched "hello" 1 0 2 (1 / 100) 3 0 (by norm_num)

/-- C2: in any successful dispatch of a value-change trigger on parameter
`n`, the invoked callbacks are exactly those registered for `n`, so a
callback registered on a different parameter B is never invoked as part
of that trigger even when a callback issues an `apply_update` on B:
propagation is exactly one hop deep per external trigger. -/
theorem callback_propagation_one_hop {A : Type} (e : Engine A) (n : String)
    (raw : Value) (e' : Engine A) (tr : List (Nat × Snapshot))
    (hd : e.dispatch n raw = .ok (e', tr)) :
    tr.map Prod.fst = (cbsFor e n).map Callback.id ∧
    (∀ (m : String) (c : Callback), c ∈ cbsFor e m →
      c.id ∉ (cbsFor e n).map Callback.id → c.id ∉ tr.map Prod.fst) := by
  have htr : ∃ S, tr = (cbsFor e n).map (fun c => (c.id, S)) := by
    unfold Engine.dispatch at hd
    split at hd
    · simp at hd
    · next p hL =>
      split at hd
      · simp at hd
      · next u hU =>
        split at hd
        · simp at hd
        · next e1 w hA =>
          split at hd
          · simp at hd
          · next e2 tr2 hR =>
            simp at hd
            exact ⟨e1.snapshot, hd.2 ▸ runCallbacks_trace _ _ _ _ _ hR⟩
  obtain ⟨S, hS⟩ := htr
  have hmap : tr.map Prod.fst = (cbsFor e n).map Callback.id := by
    rw [hS, List.map_map]
    rfl
  exact ⟨hmap, fun m c hcm hcn hmem => hcn (hmap ▸ hmem)⟩

/-- C2 witness: dispatching a change of "a" on `engineA` invokes exactly
the callbacks registered on "a" (ids 1 and 2), and the callback `cbOnB`
registered on "b" (id 3) is not invoked even though callback 1 issued an
`apply_update` on "b". -/
theorem callback_propagation_one_hop_witness :
    dispA.2.map Prod.fst = (cbsFor engineA "a").map Callback.id ∧
    cbOnB.id ∉ dispA.2.map Prod.fst :=
  ⟨(callback_propagation_one_hop engineA "a" (Value.int 4) dispA.1 dispA.2 rfl).1,
   (callback_propagation_one_hop engineA "a" (Value.int 4) dispA.1 dispA.2 rfl).2
      "b" cbOnB (List.mem_singleton.mpr rfl) (by decide)⟩

/-- C3: in any successful dispatch, the callbacks registered for the
triggered parameter run strictly sequentially in registration order, each
invoked with the same snapshot S1 computed once after the root value
update; the second conjunct exhibits that each callback's updates are
applied to completion before the next callback begins. -/
theorem callbacks_ordered_same_snapshot {A : Type} (e : Engine A) (n : String)
    (raw : Value) (e' : Engine A) (tr : List (Nat × Snapshot)) (S1 : Snapshot)
    (hd : e.dispatch n raw = .ok (e', tr))
    (hs : rootSnap e n raw = some S1) :
    tr = (cbsFor e n).map (fun c => (c.id, S1)) ∧
    (∀ (e0 : Engine A) (c : Callback) (rest : List Callback),
      runCallbacks e0 S1 (c :: rest) =
        match applyActs e0 (c.run S1) with
        | .error err => .error err
        | .ok e1 =>
          match runCallbacks e1 S1 rest with
          | .error err => .error err
          | .ok (e2, tr2) => .ok (e2, (c.id, S1) :: tr2)) := by
  refine ⟨?_, fun e0 c rest => rfl⟩
  unfold Engine.dispatch at hd
  unfold rootSnap at hs
  cases hL : lookupP e.params n with
  | none =>
    rw [hL] at hd
    simp at hd
  | some p =>
    rw [hL] at hd hs
    dsimp only at hd hs
    cases hU : valueUpd p raw with
    | none =>
      rw [hU] at hd
      simp at hd
    | some u =>
      rw [hU] at hd hs
      dsimp only at hd hs
      cases hA : e.applyUpdate n u with
      | error err =>
        rw [hA] at hd
        simp at hd
      | ok pr =>
        obtain ⟨e1, w⟩ := pr
        rw [hA] at hd hs
        dsimp only at hd hs
        simp at hs
        cases hR : runCallbacks e1 e1.snapshot (cbsFor e n) with
        | error err =>
          rw [hR] at hd
          simp at hd
        | ok pr2 =>
          obtain ⟨e2, tr2⟩ := pr2
          rw [hR] at hd
          dsimp only at hd
          simp at hd
          rw [← hd.2, ← hs]
          exact runCallbacks_trace _ _ _ _ _ hR

/-- C3 witness: on `engineA`, the trace of a dispatch on "a" pairs the
callbacks 1 and 2, in registration order, each with the same root
snapshot `snapA`. -/
theorem callbacks_ordered_same_snapshot_witness :
    dispA.2 = (cbsFor engineA "a").map (fun c => (c.id, snapA)) :=
  (callbacks_ordered_same_snapshot engineA "a" (Value.int 4) dispA.1 dispA.2 snapA
    rfl rfl).1

/-- C6: pressing a Button with `replot = false` leaves `last_artifact`
unchanged (even when the button's callback mutates other parameters),
while pressing a Button with `replot = true` stores a fresh render of the
post-callback snapshot in `last_artifact`. -/
theorem button_replot_semantics {A : Type} (e : Engine A) (n lbl : String)
    (rp : Bool) (cb : Callback) (e' : Engine A)
    (hp : lookupP e.params n = some (.button lbl rp cb))
    (hd : e.dispatchButton n = .ok e') :
    (rp = false → e'.lastArtifact = e.lastArtifact) ∧
    (rp = true → e'.lastArtifact = some (e.render e'.snapshot)) := by
  unfold Engine.dispatchButton at hd
  rw [hp] at hd
  dsimp only at hd
  cases hA : applyActs e (cb.run e.snapshot) with
  | error err =>
    rw [hA] at hd
    simp at hd
  | ok e1 =>
    rw [hA] at hd
    dsimp only at hd
    obtain ⟨hr, hl, hc, hph⟩ := applyActs_frame _ _ _ hA
    cases rp with
    | false =>
      simp at hd
      subst hd
      exact ⟨fun _ => hl, fun h2 => nomatch h2⟩
    | true =>
      simp at hd
      subst hd
      constructor
      · intro h2
        exact nomatch h2
      · intro h3
        simp [Engine.snapshot, hr]

/-- C6 witness: on `engineB`, pressing "off" (`replot = false`) mutates
"x" but leaves the artifact at its previous value, while pressing "on"
(`replot = true`) stores a fresh render. -/
theorem button_replot_semantics_witness :
    engineBoff.lastArtifact = engineB.lastArtifact ∧
    engineBon.lastArtifact = some (engineB.render engineBon.snapshot) ∧
    lookupP engineBoff.params "x" = some (Param.integer 3 0 10) :=
  ⟨(button_replot_semantics engineB "off" "off" false cbPress engineBoff rfl rfl).1
      rfl,
   (button_replot_semantics engineB "on" "on" true cbPress engineBon rfl rfl).2 rfl,
   rfl⟩

end Syd
